import Mathlib

/-!
Verification of the Smartrzliv refresh/cache pipeline.

The source is a Node.js server that periodically polls a content API:
a retrying HTTP fetcher with exponential backoff (fetchWithRetry),
token acquisition, three content fetch-and-cache operations
(fetchAndCacheData), and a cycle orchestrator (runUpdateCycle).

The embedding models the network as an oracle: a function from the
attempt index to the outcome of the underlying fetch call at that
attempt (either a network-level exception or a response carrying a
status, a status text, and an already parsed JSON body).  File writes
are modelled by an association list from filename to the written
bytes; waited backoff delays are collected in a list (milliseconds),
in the order they are awaited.
-/

/-- The maximum attempt count of the retry loop (source: MAX_RETRIES = 5). -/
def MAX_RETRIES : Nat := 5

/-- Parsed JSON body of a token response: the timestamp and signature
fields, each possibly absent.  A JS falsy field is either absent or the
empty string. -/
structure TokenBody where
  timestamp : Option String
  signature : Option String
deriving DecidableEq

/-- Parsed JSON body of a content response: the data field (base64 text),
possibly absent. -/
structure ContentBody where
  data : Option String
deriving DecidableEq

/-- Outcome of one underlying fetch call: either the promise rejects with a
network-level error, or it resolves to an HTTP response. -/
inductive FetchOutcome (α : Type) where
  | netError (msg : String)
  | response (status : Nat) (statusText : String) (body : α)
deriving DecidableEq

/-- An HTTP response as seen by the caller of fetchWithRetry. -/
structure Response (α : Type) where
  status : Nat
  statusText : String
  body : α
deriving DecidableEq

/-- response.ok of the fetch API: status in the 2xx range. -/
def isOkStatus (s : Nat) : Bool := 200 ≤ s && s < 300

/-- The error message raised on HTTP status 403 (anti-bot rejection). -/
def antiBotMsg : String := "403 Forbidden: Anti-bot system detected request."

/-- The error message raised on any other non-OK status. -/
def apiFailMsg (s : Nat) (statusText : String) : String :=
  "API failed: Status " ++ toString s ++ " " ++ statusText

/-- One loop iteration body of fetchWithRetry, minus the waiting: perform the
fetch, throw on status 403, throw on any other non-OK status, otherwise
return the response.  A thrown error is an Except.error carrying the
message. -/
def attemptOnce {α : Type} (o : FetchOutcome α) : Except String (Response α) :=
  match o with
  | FetchOutcome.netError m => Except.error m
  | FetchOutcome.response s sText b =>
    if s = 403 then Except.error antiBotMsg
    else if isOkStatus s then Except.ok ⟨s, sText, b⟩
    else Except.error (apiFailMsg s sText)

/-- The aggregate error raised after all attempts fail, embedding the last
observed error message.  (With zero configured attempts the JS code would
fault reading lastError.message; that case is outside every claim, which
all have at least one attempt, and the placeholder below is never used.) -/
def aggregateMsg (n : Nat) (last : Option String) : String :=
  "All " ++ toString n ++ " attempts failed. Last error: " ++ last.getD "null"

/-- The delay awaited at the start of loop iteration i: 2 to the power i
seconds (in ms), awaited only when i is positive. -/
def waitsAt (i : Nat) : List Nat := if 0 < i then [2 ^ i * 1000] else []

/-- The retry loop of fetchWithRetry.  fuel is the number of remaining loop
iterations, i the current attempt index, last the last observed error;
total is the configured attempt count, used only in the aggregate message.
Returns the result together with the list of awaited delays (ms). -/
def retryLoop {α : Type} (f : Nat → FetchOutcome α) (total : Nat) :
    Nat → Nat → Option String → Except String (Response α) × List Nat
  | 0, _, last => (Except.error (aggregateMsg total last), [])
  | fuel + 1, i, last =>
    match attemptOnce (f i) with
    | Except.ok r => (Except.ok r, waitsAt i)
    | Except.error e =>
      let rest := retryLoop f total fuel (i + 1) (some e)
      (rest.1, waitsAt i ++ rest.2)

/-- fetchWithRetry with a configurable attempt count n: run the loop from
attempt 0 with n iterations of fuel. -/
def fetchWithRetryN {α : Type} (n : Nat) (f : Nat → FetchOutcome α) :
    Except String (Response α) × List Nat :=
  retryLoop f n n 0 none

/-- fetchWithRetry as in the source: the attempt count is MAX_RETRIES. -/
def fetchWithRetry {α : Type} (f : Nat → FetchOutcome α) :
    Except String (Response α) × List Nat :=
  fetchWithRetryN MAX_RETRIES f

/-! ### Base64 (Node Buffer.from(s, base64) / toString) -/

/-- The base64 alphabet, index to character. -/
def b64Alphabet : List Char :=
  "ABCDEFGHIJKLMNOPQRSTUVWXYZabcdefghijklmnopqrstuvwxyz0123456789+/".data

/-- Character of a sextet value. -/
def sextetChar (n : Nat) : Char := b64Alphabet.getD n 'A'

/-- Sextet value of a character: its index in the alphabet, none when the
character is not in the alphabet (Node-style forgiving decoding skips such
characters, including the padding =). -/
def sextetOf (c : Char) : Option Nat :=
  let i := b64Alphabet.indexOf c
  if i < 64 then some i else none

/-- Encode a byte list to base64 characters, three bytes to four characters,
padding the final partial group with =. -/
def b64EncodeChunks : List Nat → List Char
  | [] => []
  | [a] => [sextetChar (a / 4), sextetChar (a % 4 * 16), '=', '=']
  | [a, b] => [sextetChar (a / 4), sextetChar (a % 4 * 16 + b / 16), sextetChar (b % 16 * 4), '=']
  | a :: b :: c :: rest =>
    sextetChar (a / 4) :: sextetChar (a % 4 * 16 + b / 16) ::
      sextetChar (b % 16 * 4 + c / 64) :: sextetChar (c % 64) :: b64EncodeChunks rest

/-- Base64 encoding of a byte list, as a string. -/
def b64encode (bs : List Nat) : String := ⟨b64EncodeChunks bs⟩

/-- Decode a list of sextets to bytes, four sextets to three bytes; a final
group of two or three sextets yields one or two bytes, and a lone leftover
sextet yields nothing. -/
def b64DecodeSextets : List Nat → List Nat
  | s1 :: s2 :: s3 :: s4 :: rest =>
    (s1 * 4 + s2 / 16) :: (s2 % 16 * 16 + s3 / 4) :: (s3 % 4 * 64 + s4) ::
      b64DecodeSextets rest
  | [s1, s2] => [s1 * 4 + s2 / 16]
  | [s1, s2, s3] => [s1 * 4 + s2 / 16, s2 % 16 * 16 + s3 / 4]
  | _ => []

/-- Buffer.from(s, base64): total, forgiving base64 decoding — characters
outside the alphabet (padding included) are skipped, never an exception. -/
def b64decode (s : String) : List Nat :=
  b64DecodeSextets (s.data.filterMap sextetOf)

/-- UTF-8 encoding of one character (its code point), 1 to 4 bytes. -/
def utf8EncodeCharNat (c : Char) : List Nat :=
  let n := c.toNat
  if n < 128 then [n]
  else if n < 2048 then [192 + n / 64, 128 + n % 64]
  else if n < 65536 then [224 + n / 4096, 128 + n / 64 % 64, 128 + n % 64]
  else [240 + n / 262144, 128 + n / 4096 % 64, 128 + n / 64 % 64, 128 + n % 64]

/-- UTF-8 bytes of a string, the byte-level content Node writes for it. -/
def utf8Bytes (s : String) : List Nat := (s.data.map utf8EncodeCharNat).flatten

/-! ### Content fetch-and-cache and the update cycle -/

/-- One entry of REQUEST_TYPES. -/
structure RequestSpec where
  type : String
  filename : String
  label : String
deriving DecidableEq

/-- The three fixed content categories (source: REQUEST_TYPES). -/
def REQUEST_TYPES : List RequestSpec :=
  [⟨"up", "upcoming.json", "Upcoming"⟩,
   ⟨"live", "live.json", "Live"⟩,
   ⟨"completed", "completed.json", "Completed"⟩]

/-- JS truthiness of an optional string field: present and nonempty. -/
def truthy (o : Option String) : Bool := o.getD "" != ""

/-- fetchAndCacheData for one content type: fetch with retry, require a
truthy data field, base64-decode it, and write the file.  The returned
value is the write performed (filename and decoded bytes), or none when
any step failed (the catch block only logs).  ts and sig are the token
pair carried in the request headers; the oracle f describes the responses
of the content endpoint for this request. -/
def fetchAndCacheData (f : Nat → FetchOutcome ContentBody)
    (ty fn ts sig : String) : Option (String × List Nat) :=
  match (fetchWithRetry f).1 with
  | Except.error _ => none
  | Except.ok resp =>
    match resp.body.data with
    | none => none
    | some d => if d = "" then none else some (fn, b64decode d)

/-- The environment of one cycle: the oracle of the token endpoint, and the
oracle of the content endpoint per content type and token pair. -/
structure CycleEnv where
  tokenFetch : Nat → FetchOutcome TokenBody
  contentFetch : String → String → String → Nat → FetchOutcome ContentBody

/-- Server state: the cache directory (filename to written bytes, newest
entry first) and the lastUpdateTime scalar. -/
structure ServerState where
  cache : List (String × List Nat)
  lastUpdateTime : String
deriving DecidableEq

/-- runUpdateCycle: record the new last update time unconditionally, fetch
the token with retry, require truthy timestamp and signature, then run the
three content fetches and apply their writes.  The second component lists
the content types whose fetch was attempted (empty when the cycle ended
early at the token step). -/
def runUpdateCycle (env : CycleEnv) (now : String) (st : ServerState) :
    ServerState × List String :=
  let st1 : ServerState := { st with lastUpdateTime := now }
  match (fetchWithRetry env.tokenFetch).1 with
  | Except.error _ => (st1, [])
  | Except.ok resp =>
    if truthy resp.body.timestamp && truthy resp.body.signature then
      let ts := resp.body.timestamp.getD ""
      let sig := resp.body.signature.getD ""
      let writes := REQUEST_TYPES.filterMap (fun req =>
        fetchAndCacheData (env.contentFetch req.type ts sig) req.type req.filename ts sig)
      ({ st1 with cache := writes ++ st1.cache }, REQUEST_TYPES.map (fun req => req.type))
    else (st1, [])

/-- The status route: a pure read of lastUpdateTime. -/
def statusEndpoint (st : ServerState) : String := st.lastUpdateTime

instance {ε α : Type} [DecidableEq ε] [DecidableEq α] : DecidableEq (Except ε α) := fun x y =>
  match x, y with
  | Except.ok a, Except.ok b =>
    if h : a = b then Decidable.isTrue (congrArg Except.ok h)
    else Decidable.isFalse (fun hc => h (Except.ok.inj hc))
  | Except.error a, Except.error b =>
    if h : a = b then Decidable.isTrue (congrArg Except.error h)
    else Decidable.isFalse (fun hc => h (Except.error.inj hc))
  | Except.ok _, Except.error _ => Decidable.isFalse (fun hc => Except.noConfusion hc)
  | Except.error _, Except.ok _ => Decidable.isFalse (fun hc => Except.noConfusion hc)

/-! ### General lemmas about the retry loop -/

/-- The waited-delay list of a window of all-failing attempts starting at
index i with k iterations: 2 to the power i seconds, doubling each step. -/
def expWaits : Nat → Nat → List Nat
  | _, 0 => []
  | i, k + 1 => 2 ^ i * 1000 :: expWaits (i + 1) k

theorem retryLoop_allFail {α : Type} (f : Nat → FetchOutcome α) (e : Nat → String)
    (total : Nat) :
    ∀ (fuel i : Nat) (last : Option String),
      (∀ j, i ≤ j → j < i + fuel → attemptOnce (f j) = Except.error (e j)) →
      (retryLoop f total fuel i last).1 =
        Except.error (aggregateMsg total
          (if fuel = 0 then last else some (e (i + fuel - 1)))) := by
  intro fuel
  induction fuel with
  | zero => intro i last _; simp [retryLoop]
  | succ n ih =>
    intro i last h
    have hi : attemptOnce (f i) = Except.error (e i) := h i (Nat.le_refl i) (by omega)
    have ih2 := ih (i + 1) (some (e i)) (fun j hj1 hj2 => h j (by omega) (by omega))
    simp only [retryLoop, hi]
    rw [ih2]
    have harg : (if n = 0 then some (e i) else some (e (i + 1 + n - 1))) =
        some (e (i + (n + 1) - 1)) := by
      by_cases hn : n = 0
      · subst hn; simp
      · rw [if_neg hn]
        have hidx : i + 1 + n - 1 = i + (n + 1) - 1 := by omega
        rw [hidx]
    rw [harg]
    simp

theorem retryLoop_success {α : Type} (f : Nat → FetchOutcome α) (e : Nat → String)
    (r : Response α) (total : Nat) :
    ∀ (fuel i : Nat) (last : Option String) (m : Nat), i ≤ m → m < i + fuel →
      (∀ j, i ≤ j → j < m → attemptOnce (f j) = Except.error (e j)) →
      attemptOnce (f m) = Except.ok r →
      (retryLoop f total fuel i last).1 = Except.ok r := by
  intro fuel
  induction fuel with
  | zero => intro i last m h1 h2 _ _; omega
  | succ n ih =>
    intro i last m h1 h2 herr hok
    by_cases him : i = m
    · subst him
      simp [retryLoop, hok]
    · have hi : attemptOnce (f i) = Except.error (e i) := herr i (Nat.le_refl i) (by omega)
      have step := ih (i + 1) (some (e i)) m (by omega) (by omega)
        (fun j hj1 hj2 => herr j (by omega) hj2) hok
      simp [retryLoop, hi, step]

theorem retryLoop_delays_allFail {α : Type} (f : Nat → FetchOutcome α) (e : Nat → String)
    (total : Nat) :
    ∀ (fuel i : Nat) (last : Option String), 1 ≤ i →
      (∀ j, i ≤ j → j < i + fuel → attemptOnce (f j) = Except.error (e j)) →
      (retryLoop f total fuel i last).2 = expWaits i fuel := by
  intro fuel
  induction fuel with
  | zero => intro i last _ _; simp [retryLoop, expWaits]
  | succ n ih =>
    intro i last hi1 h
    have hi : attemptOnce (f i) = Except.error (e i) := h i (Nat.le_refl i) (by omega)
    have ih2 := ih (i + 1) (some (e i)) (by omega) (fun j hj1 hj2 => h j (by omega) (by omega))
    simp [retryLoop, hi, ih2, waitsAt, expWaits, Nat.lt_of_lt_of_le Nat.zero_lt_one hi1]

theorem fetchWithRetryN_delays_allFail {α : Type} (f : Nat → FetchOutcome α)
    (e : Nat → String) (N : Nat) (hN : 1 ≤ N)
    (h : ∀ j, j < N → attemptOnce (f j) = Except.error (e j)) :
    (fetchWithRetryN N f).2 = expWaits 1 (N - 1) := by
  obtain ⟨M, rfl⟩ : ∃ M, N = M + 1 := ⟨N - 1, by omega⟩
  have h0 : attemptOnce (f 0) = Except.error (e 0) := h 0 (by omega)
  have hrest := retryLoop_delays_allFail f e (M + 1) M 1 (some (e 0)) (by omega)
    (fun j hj1 hj2 => h j (by omega))
  simp [fetchWithRetryN, retryLoop, h0, waitsAt, hrest]

theorem retryLoop_delays_reach {α : Type} (f : Nat → FetchOutcome α) (e : Nat → String)
    (total : Nat) :
    ∀ (fuel i : Nat) (last : Option String) (m : Nat), 1 ≤ i → i ≤ m → m < i + fuel →
      (∀ j, i ≤ j → j < m → attemptOnce (f j) = Except.error (e j)) →
      ∃ t, (retryLoop f total fuel i last).2 = expWaits i (m + 1 - i) ++ t := by
  intro fuel
  induction fuel with
  | zero => intro i last m _ h2 h3 _; omega
  | succ n ih =>
    intro i last m hi1 h2 h3 herr
    have hm1 : m + 1 - i = (m - i) + 1 := by omega
    by_cases him : i = m
    · subst him
      have hone : i + 1 - i = 1 := by omega
      cases hout : attemptOnce (f i) with
      | ok r =>
        refine ⟨[], ?_⟩
        simp [retryLoop, hout, waitsAt, hone, expWaits,
          Nat.lt_of_lt_of_le Nat.zero_lt_one hi1]
      | error er =>
        refine ⟨(retryLoop f total n (i + 1) (some er)).2, ?_⟩
        simp [retryLoop, hout, waitsAt, hone, expWaits,
          Nat.lt_of_lt_of_le Nat.zero_lt_one hi1]
    · have hi : attemptOnce (f i) = Except.error (e i) := herr i (Nat.le_refl i) (by omega)
      obtain ⟨t, ht⟩ := ih (i + 1) (some (e i)) m (by omega) (by omega) (by omega)
        (fun j hj1 hj2 => herr j (by omega) hj2)
      refine ⟨t, ?_⟩
      have hm2 : m + 1 - (i + 1) = m - i := by omega
      rw [hm2] at ht
      simp [retryLoop, hi, ht, waitsAt, hm1, expWaits,
        Nat.lt_of_lt_of_le Nat.zero_lt_one hi1]

theorem expWaits_append_get (t : List Nat) :
    ∀ (k i j : Nat), j < k → (expWaits i k ++ t)[j]? = some (2 ^ (i + j) * 1000) := by
  intro k
  induction k with
  | zero => intro i j h; omega
  | succ n ih =>
    intro i j h
    cases j with
    | zero => simp [expWaits]
    | succ jj =>
      have heq : i + (jj + 1) = i + 1 + jj := by omega
      rw [heq]
      simp only [expWaits, List.cons_append, List.getElem?_cons_succ]
      exact ih (i + 1) jj (by omega)

/-! ### Concrete oracles used by witnesses and counterexamples -/

/-- An oracle whose fetch always rejects with a network error. -/
def alwaysNetError : Nat → FetchOutcome ContentBody :=
  fun _ => FetchOutcome.netError "boom"

/-- An oracle whose fetch always returns HTTP 403. -/
def always403 : Nat → FetchOutcome ContentBody :=
  fun _ => FetchOutcome.response 403 "Forbidden" ⟨none⟩

/-- An oracle failing on attempts 0 to 3 and succeeding on attempt 4 (the
fifth and last attempt of a 5-attempt call). -/
def failFourThenOk : Nat → FetchOutcome ContentBody := fun i =>
  if i < 4 then FetchOutcome.netError "boom"
  else FetchOutcome.response 200 "OK" ⟨some "QQ=="⟩

/-- An oracle failing on attempts 0 to 4 and succeeding from attempt 5 on:
the success would only be observed on a sixth attempt. -/
def failFiveThenOk : Nat → FetchOutcome ContentBody := fun i =>
  if i < 5 then FetchOutcome.netError "boom"
  else FetchOutcome.response 200 "OK" ⟨some "QQ=="⟩

/-! ### Claim C1 -/

/-- Claim C1, counterexample: with the configured N = 5 attempts, a call
whose underlying fetch fails 5 times and would succeed on attempt 6 does
not return the successful response — the loop makes only N attempts, so it
raises the aggregate error and the N + 1st attempt never happens. -/
theorem fetchWithRetry_no_sixth_attempt :
    (fetchWithRetryN 5 failFiveThenOk).1 =
      Except.error "All 5 attempts failed. Last error: boom"
    ∧ (fetchWithRetryN 5 failFiveThenOk).1 ≠
      Except.ok (⟨200, "OK", ⟨some "QQ=="⟩⟩ : Response ContentBody) := by
  constructor
  · rfl
  · decide

/-- Claim C1, amended: with N attempts configured the code makes exactly N
underlying fetch attempts.  A call whose fetch fails N - 1 times and then
succeeds on attempt N returns the successful response, and a call that
fails all N attempts raises the aggregate error embedding the last
observed error message. -/
theorem fetchWithRetry_attempt_exhaustion {α : Type} (f : Nat → FetchOutcome α)
    (e : Nat → String) (r : Response α) (N : Nat) (hN : 1 ≤ N) :
    ((∀ j, j < N - 1 → attemptOnce (f j) = Except.error (e j)) →
      attemptOnce (f (N - 1)) = Except.ok r →
      (fetchWithRetryN N f).1 = Except.ok r)
    ∧ ((∀ j, j < N → attemptOnce (f j) = Except.error (e j)) →
      (fetchWithRetryN N f).1 =
        Except.error (aggregateMsg N (some (e (N - 1))))) := by
  constructor
  · intro herr hok
    exact retryLoop_success f e r N N 0 none (N - 1) (by omega) (by omega)
      (fun j hj1 hj2 => herr j (by omega)) hok
  · intro herr
    have h := retryLoop_allFail f e N N 0 none (fun j hj1 hj2 => herr j (by omega))
    have hN0 : ¬(N = 0) := by omega
    rw [if_neg hN0] at h
    have hidx : 0 + N - 1 = N - 1 := by omega
    rw [hidx] at h
    exact h

/-- Claim C1, amended, witness at N = 5: a fetch failing four times then
succeeding returns the response, and a fetch failing five times raises the
aggregate error embedding the last message. -/
theorem fetchWithRetry_attempt_exhaustion_witness :
    (fetchWithRetryN 5 failFourThenOk).1 =
      Except.ok (⟨200, "OK", ⟨some "QQ=="⟩⟩ : Response ContentBody)
    ∧ (fetchWithRetryN 5 alwaysNetError).1 =
      Except.error (aggregateMsg 5 (some "boom")) := by
  constructor
  · exact (fetchWithRetry_attempt_exhaustion failFourThenOk (fun _ => "boom")
      ⟨200, "OK", ⟨some "QQ=="⟩⟩ 5 (by omega)).1 (by decide) (by decide)
  · exact (fetchWithRetry_attempt_exhaustion alwaysNetError (fun _ => "boom")
      ⟨200, "OK", ⟨some "QQ=="⟩⟩ 5 (by omega)).2 (by decide)

/-! ### Claim C2 -/

/-- Claim C2: when attempt i (0-indexed, 1 ≤ i ≤ N - 1) is reached — that
is, attempts 0 to i - 1 all failed — the backoff delay waited immediately
before attempt i is exactly 2 to the power i seconds (2 ^ i * 1000 ms, the
i-th entry of the waited-delay list). -/
theorem fetchWithRetry_backoff_delay {α : Type} (f : Nat → FetchOutcome α)
    (e : Nat → String) (N i : Nat) (h1 : 1 ≤ i) (h2 : i < N)
    (h : ∀ j, j < i → attemptOnce (f j) = Except.error (e j)) :
    ((fetchWithRetryN N f).2)[i - 1]? = some (2 ^ i * 1000) := by
  obtain ⟨M, rfl⟩ : ∃ M, N = M + 1 := ⟨N - 1, by omega⟩
  have h0 : attemptOnce (f 0) = Except.error (e 0) := h 0 (by omega)
  obtain ⟨t, ht⟩ := retryLoop_delays_reach f e (M + 1) M 1 (some (e 0)) i
    (by omega) h1 (by omega) (fun j hj1 hj2 => h j hj2)
  have hred : (fetchWithRetryN (M + 1) f).2 =
      (retryLoop f (M + 1) M 1 (some (e 0))).2 := by
    simp [fetchWithRetryN, retryLoop, h0, waitsAt]
  rw [hred, ht]
  have hip : i + 1 - 1 = i := by omega
  rw [hip]
  have hget := expWaits_append_get t i 1 (i - 1) (by omega)
  rw [hget]
  have hexp : 1 + (i - 1) = i := by omega
  rw [hexp]

/-- Claim C2, witness: with all five attempts failing, the delay waited
before attempt 3 is 8 seconds. -/
theorem fetchWithRetry_backoff_delay_witness :
    ((fetchWithRetryN 5 alwaysNetError).2)[2]? = some 8000 :=
  fetchWithRetry_backoff_delay alwaysNetError (fun _ => "boom") 5 3
    (by omega) (by omega) (by decide)

/-! ### Claim C9 -/

/-- Claim C9, counterexample: with 5 configured attempts all failing, the
delays actually waited are 2s, 4s, 8s, 16s — four waits, not the claimed
five of 1s, 2s, 4s, 8s, 16s: the 1 second delay computed at iteration 0 is
never awaited. -/
theorem fetchWithRetry_delay_list_counterexample :
    (fetchWithRetryN 5 alwaysNetError).2 = [2000, 4000, 8000, 16000]
    ∧ (fetchWithRetryN 5 alwaysNetError).2 ≠ [1000, 2000, 4000, 8000, 16000] := by
  constructor
  · rfl
  · decide

/-- Claim C9, amended: for a fetchWithRetry call with the configured 5
attempts in which every attempt fails, the successive backoff delays
waited are 2s, 4s, 8s and 16s. -/
theorem fetchWithRetry_delays_all_fail {α : Type} (f : Nat → FetchOutcome α)
    (e : Nat → String)
    (h : ∀ j, j < 5 → attemptOnce (f j) = Except.error (e j)) :
    (fetchWithRetryN 5 f).2 = [2000, 4000, 8000, 16000] := by
  have hd := fetchWithRetryN_delays_allFail f e 5 (by omega) h
  rw [hd]
  rfl

/-- Claim C9, amended, witness: an all-403 oracle waits exactly 2s, 4s, 8s,
16s. -/
theorem fetchWithRetry_delays_all_fail_witness :
    (fetchWithRetryN 5 always403).2 = [2000, 4000, 8000, 16000] :=
  fetchWithRetry_delays_all_fail always403 (fun _ => antiBotMsg) (by decide)

/-! ### Base64 round trip -/

theorem sextetOf_sextetChar : ∀ n, n < 64 → sextetOf (sextetChar n) = some n := by decide

theorem sextetOf_pad : sextetOf '=' = none := by decide

theorem b64DecodeSextets_encode : ∀ bs : List Nat, (∀ b ∈ bs, b < 256) →
    b64DecodeSextets ((b64EncodeChunks bs).filterMap sextetOf) = bs
  | [], _ => by simp [b64EncodeChunks, b64DecodeSextets]
  | [a], h => by
    have ha : a < 256 := h a (by simp)
    have h1 := sextetOf_sextetChar (a / 4) (by omega)
    have h2 := sextetOf_sextetChar (a % 4 * 16) (by omega)
    simp [b64EncodeChunks, List.filterMap_cons, h1, h2, sextetOf_pad, b64DecodeSextets]
    omega
  | [a, b], h => by
    have ha : a < 256 := h a (by simp)
    have hb : b < 256 := h b (by simp)
    have h1 := sextetOf_sextetChar (a / 4) (by omega)
    have h2 := sextetOf_sextetChar (a % 4 * 16 + b / 16) (by omega)
    have h3 := sextetOf_sextetChar (b % 16 * 4) (by omega)
    simp [b64EncodeChunks, List.filterMap_cons, h1, h2, h3, sextetOf_pad, b64DecodeSextets]
    omega
  | a :: b :: c :: rest, h => by
    have ha : a < 256 := h a (by simp)
    have hb : b < 256 := h b (by simp)
    have hc : c < 256 := h c (by simp)
    have ih := b64DecodeSextets_encode rest (fun x hx => h x (by simp [hx]))
    have h1 := sextetOf_sextetChar (a / 4) (by omega)
    have h2 := sextetOf_sextetChar (a % 4 * 16 + b / 16) (by omega)
    have h3 := sextetOf_sextetChar (b % 16 * 4 + c / 64) (by omega)
    have h4 := sextetOf_sextetChar (c % 64) (by omega)
    simp [b64EncodeChunks, List.filterMap_cons, h1, h2, h3, h4, b64DecodeSextets, ih]
    omega

/-- Round trip at the byte level: decoding an encoded byte list recovers it. -/
theorem b64decode_encode (bs : List Nat) (h : ∀ b ∈ bs, b < 256) :
    b64decode (b64encode bs) = bs :=
  b64DecodeSextets_encode bs h

/-! ### Claim C8 -/

/-- Cycle environment of the end-to-end scenario: the token endpoint returns
timestamp 123 and signature abcdef, and the content endpoint returns
data QQ== for type up (nothing for the other types). -/
def envEndToEnd : CycleEnv :=
  ⟨fun _ => FetchOutcome.response 200 "OK" ⟨some "123", some "abcdef"⟩,
   fun ty _ _ _ =>
     if ty = "up" then FetchOutcome.response 200 "OK" ⟨some "QQ=="⟩
     else FetchOutcome.response 200 "OK" ⟨none⟩⟩

/-- Claim C8: base64 round trip — for every byte string T (a text in its
UTF-8 bytes), encoding T to base64 and feeding it through the decode step
yields exactly T; in particular QQ== decodes to the UTF-8 bytes of A, and
in the end-to-end scenario the cycle writes exactly the content A to the
file upcoming.json. -/
theorem base64_roundtrip_end_to_end (bs : List Nat) (h : ∀ b ∈ bs, b < 256) :
    b64decode (b64encode bs) = bs
    ∧ b64decode "QQ==" = utf8Bytes "A"
    ∧ List.lookup "upcoming.json"
        ((runUpdateCycle envEndToEnd "10:00:00" ⟨[], "Never"⟩).1.cache) =
      some (utf8Bytes "A") :=
  ⟨b64decode_encode bs h, by decide, by decide⟩

/-- Claim C8, witness at a concrete multi-byte UTF-8 text. -/
theorem base64_roundtrip_end_to_end_witness :
    b64decode (b64encode (utf8Bytes "Hello, world")) = utf8Bytes "Hello, world"
    ∧ b64decode "QQ==" = utf8Bytes "A"
    ∧ List.lookup "upcoming.json"
        ((runUpdateCycle envEndToEnd "10:00:00" ⟨[], "Never"⟩).1.cache) =
      some (utf8Bytes "A") :=
  base64_roundtrip_end_to_end (utf8Bytes "Hello, world") (by decide)

/-! ### Claim C10 -/

/-- Claim C10: the base64 decode step is total — Buffer.from(s, base64)
never throws — so whenever the content fetch succeeds and the data field is
truthy, fetchAndCacheData reaches the file write, even when data is not
valid base64; there is no reachable decode-error branch. -/
theorem fetchAndCacheData_decode_total (f : Nat → FetchOutcome ContentBody)
    (r : Response ContentBody) (d ty fn ts sig : String)
    (hok : (fetchWithRetry f).1 = Except.ok r)
    (hd : r.body.data = some d) (hne : d ≠ "") :
    fetchAndCacheData f ty fn ts sig = some (fn, b64decode d) := by
  unfold fetchAndCacheData
  rw [hok]
  simp [hd, hne]

/-- An oracle answering with a data field that is not valid base64. -/
def badBase64Oracle : Nat → FetchOutcome ContentBody :=
  fun _ => FetchOutcome.response 200 "OK" ⟨some "!!not base64!!"⟩

/-- Claim C10, witness: even for garbage data the write is reached. -/
theorem fetchAndCacheData_decode_total_witness :
    fetchAndCacheData badBase64Oracle "up" "upcoming.json" "t" "s" =
      some ("upcoming.json", b64decode "!!not base64!!") :=
  fetchAndCacheData_decode_total badBase64Oracle ⟨200, "OK", ⟨some "!!not base64!!"⟩⟩
    "!!not base64!!" "up" "upcoming.json" "t" "s" rfl rfl (by decide)

/-! ### Claim C3 -/

/-- Claim C3: if the token response is missing timestamp or signature, or
either field is falsy, runUpdateCycle ends the cycle early — no content
fetch is attempted and the cache is untouched. -/
theorem runUpdateCycle_token_failure (env : CycleEnv) (now : String)
    (st : ServerState) (resp : Response TokenBody)
    (hok : (fetchWithRetry env.tokenFetch).1 = Except.ok resp)
    (hbad : truthy resp.body.timestamp = false ∨ truthy resp.body.signature = false) :
    (runUpdateCycle env now st).2 = []
    ∧ (runUpdateCycle env now st).1.cache = st.cache := by
  have hcond : (truthy resp.body.timestamp && truthy resp.body.signature) = false := by
    rcases hbad with hb | hb <;> simp [hb]
  unfold runUpdateCycle
  rw [hok]
  simp [hcond]

/-- Token endpoint returning a response without a signature field. -/
def tokenNoSig : Nat → FetchOutcome TokenBody :=
  fun _ => FetchOutcome.response 200 "OK" ⟨some "123", none⟩

/-- Environment with a token response missing the signature; its content
endpoint would answer, but must never be consulted. -/
def envBadToken : CycleEnv :=
  ⟨tokenNoSig, fun _ _ _ _ => FetchOutcome.response 200 "OK" ⟨some "QQ=="⟩⟩

/-- Claim C3, witness: with the signature missing, no content type is
attempted and nothing is written. -/
theorem runUpdateCycle_token_failure_witness :
    (runUpdateCycle envBadToken "10:00:00" ⟨[], "Never"⟩).2 = []
    ∧ (runUpdateCycle envBadToken "10:00:00" ⟨[], "Never"⟩).1.cache = [] :=
  runUpdateCycle_token_failure envBadToken "10:00:00" ⟨[], "Never"⟩
    ⟨200, "OK", ⟨some "123", none⟩⟩ (by decide) (by decide)

/-! ### Claim C7 -/

/-- Claim C7: lastUpdateTime is overwritten with the cycle start time at the
start of every cycle attempt — whatever the environment, even when the
whole cycle fails — and the status route exposes exactly that value, as a
pure read of the state. -/
theorem runUpdateCycle_lastUpdate (env : CycleEnv) (now : String) (st : ServerState) :
    (runUpdateCycle env now st).1.lastUpdateTime = now
    ∧ statusEndpoint (runUpdateCycle env now st).1 = now
    ∧ statusEndpoint st = st.lastUpdateTime := by
  have h1 : (runUpdateCycle env now st).1.lastUpdateTime = now := by
    unfold runUpdateCycle
    cases (fetchWithRetry env.tokenFetch).1 with
    | error e => simp
    | ok resp =>
      by_cases hc : (truthy resp.body.timestamp && truthy resp.body.signature) = true <;>
        simp [hc]
  exact ⟨h1, h1, rfl⟩

/-! ### Claim C6 -/

theorem attemptOnce_ok {α : Type} (o : FetchOutcome α) (r : Response α)
    (h : attemptOnce o = Except.ok r) : isOkStatus r.status = true ∧ r.status ≠ 403 := by
  cases o with
  | netError m => simp [attemptOnce] at h
  | response s sText b =>
    have h2 : (if s = 403 then Except.error antiBotMsg
        else if isOkStatus s = true then Except.ok (⟨s, sText, b⟩ : Response α)
        else Except.error (apiFailMsg s sText)) = Except.ok r := h
    by_cases h403 : s = 403
    · rw [if_pos h403] at h2
      exact absurd h2 (by simp)
    · rw [if_neg h403] at h2
      by_cases hok2 : isOkStatus s = true
      · rw [if_pos hok2] at h2
        have hr : r = ⟨s, sText, b⟩ := (Except.ok.inj h2).symm
        subst hr
        exact ⟨hok2, h403⟩
      · rw [if_neg hok2] at h2
        exact absurd h2 (by simp)

theorem retryLoop_ok_inv {α : Type} (f : Nat → FetchOutcome α) (total : Nat) :
    ∀ (fuel i : Nat) (last : Option String) (r : Response α),
      (retryLoop f total fuel i last).1 = Except.ok r →
      isOkStatus r.status = true ∧ r.status ≠ 403 := by
  intro fuel
  induction fuel with
  | zero => intro i last r h; simp [retryLoop] at h
  | succ n ih =>
    intro i last r h
    cases hout : attemptOnce (f i) with
    | ok r2 =>
      simp only [retryLoop, hout] at h
      have hr : r2 = r := Except.ok.inj h
      subst hr
      exact attemptOnce_ok (f i) r2 hout
    | error e =>
      simp only [retryLoop, hout] at h
      exact ih (i + 1) (some e) r h

/-- Claim C6: a 403 response is never returned as success regardless of
body, for any attempt count; a 403 raises the distinguishable anti-bot
message; any other non-OK status raises the generic API-failure message;
the two messages are never equal; and every error — anti-bot, generic HTTP
or network-level — makes the loop continue with the next attempt in
exactly the same way. -/
theorem fetchWithRetry_403_classification :
    (∀ (f : Nat → FetchOutcome ContentBody) (N : Nat) (r : Response ContentBody),
        (fetchWithRetryN N f).1 = Except.ok r → r.status ≠ 403)
    ∧ (∀ (sText : String) (b : ContentBody),
        attemptOnce (FetchOutcome.response 403 sText b) = Except.error antiBotMsg)
    ∧ (∀ (s : Nat) (sText : String) (b : ContentBody), isOkStatus s = false → s ≠ 403 →
        attemptOnce (FetchOutcome.response s sText b) = Except.error (apiFailMsg s sText))
    ∧ (∀ (s : Nat) (sText : String), antiBotMsg ≠ apiFailMsg s sText)
    ∧ (∀ (f : Nat → FetchOutcome ContentBody) (total fuel i : Nat)
        (last : Option String) (e : String),
        attemptOnce (f i) = Except.error e →
        retryLoop f total (fuel + 1) i last =
          ((retryLoop f total fuel (i + 1) (some e)).1,
            waitsAt i ++ (retryLoop f total fuel (i + 1) (some e)).2)) := by
  refine ⟨?_, ?_, ?_, ?_, ?_⟩
  · intro f N r h
    exact (retryLoop_ok_inv f N N 0 none r h).2
  · intro sText b
    simp [attemptOnce]
  · intro s sText b hnok h403
    simp [attemptOnce, h403, hnok]
  · intro s sText h
    have hd := congrArg String.data h
    unfold apiFailMsg at hd
    rw [String.data_append, String.data_append, String.data_append] at hd
    have h1 : antiBotMsg.data =
        '4' :: "03 Forbidden: Anti-bot system detected request.".data := rfl
    have h2 : "API failed: Status ".data = 'A' :: "PI failed: Status ".data := rfl
    rw [h1, h2] at hd
    simp only [List.cons_append] at hd
    exact absurd (List.cons.inj hd).1 (by decide)
  · intro f total fuel i last e h
    simp only [retryLoop, h]

/-- Claim C6, witness: a concrete successful run has a non-403 status, the
two failure messages arise and differ at status 500, and an error step
continues the loop identically. -/
theorem fetchWithRetry_403_classification_witness :
    ((⟨200, "OK", ⟨some "QQ=="⟩⟩ : Response ContentBody).status ≠ 403)
    ∧ attemptOnce (FetchOutcome.response 403 "Forbidden" (⟨none⟩ : ContentBody)) =
        Except.error antiBotMsg
    ∧ attemptOnce (FetchOutcome.response 500 "ISE" (⟨none⟩ : ContentBody)) =
        Except.error (apiFailMsg 500 "ISE")
    ∧ antiBotMsg ≠ apiFailMsg 500 "ISE"
    ∧ retryLoop always403 5 3 1 (some "boom") =
        ((retryLoop always403 5 2 2 (some antiBotMsg)).1,
          waitsAt 1 ++ (retryLoop always403 5 2 2 (some antiBotMsg)).2) := by
  refine ⟨?_, ?_, ?_, ?_, ?_⟩
  · exact fetchWithRetry_403_classification.1
      (fun _ => FetchOutcome.response 200 "OK" ⟨some "QQ=="⟩) 5
      ⟨200, "OK", ⟨some "QQ=="⟩⟩ rfl
  · exact fetchWithRetry_403_classification.2.1 "Forbidden" ⟨none⟩
  · exact fetchWithRetry_403_classification.2.2.1 500 "ISE" ⟨none⟩ (by decide) (by decide)
  · exact fetchWithRetry_403_classification.2.2.2.1 500 "ISE"
  · exact fetchWithRetry_403_classification.2.2.2.2 always403 5 2 1 (some "boom")
      antiBotMsg (by decide)

/-! ### Cycle branch helpers and lookup lemmas -/

theorem runUpdateCycle_token_error (env : CycleEnv) (now : String) (st : ServerState)
    (e : String) (herr : (fetchWithRetry env.tokenFetch).1 = Except.error e) :
    runUpdateCycle env now st = (⟨st.cache, now⟩, []) := by
  obtain ⟨c, l⟩ := st
  unfold runUpdateCycle
  rw [herr]

theorem runUpdateCycle_token_bad (env : CycleEnv) (now : String) (st : ServerState)
    (resp : Response TokenBody)
    (hok : (fetchWithRetry env.tokenFetch).1 = Except.ok resp)
    (hcond : (truthy resp.body.timestamp && truthy resp.body.signature) = false) :
    runUpdateCycle env now st = (⟨st.cache, now⟩, []) := by
  obtain ⟨c, l⟩ := st
  unfold runUpdateCycle
  rw [hok]
  simp [hcond]

theorem runUpdateCycle_token_ok (env : CycleEnv) (now : String) (st : ServerState)
    (resp : Response TokenBody)
    (hok : (fetchWithRetry env.tokenFetch).1 = Except.ok resp)
    (hcond : (truthy resp.body.timestamp && truthy resp.body.signature) = true) :
    runUpdateCycle env now st =
      (⟨(REQUEST_TYPES.filterMap (fun req =>
          fetchAndCacheData
            (env.contentFetch req.type (resp.body.timestamp.getD "")
              (resp.body.signature.getD ""))
            req.type req.filename (resp.body.timestamp.getD "")
            (resp.body.signature.getD "")))
        ++ st.cache, now⟩,
       REQUEST_TYPES.map (fun req => req.type)) := by
  obtain ⟨c, l⟩ := st
  unfold runUpdateCycle
  rw [hok]
  simp [hcond]

theorem lookup_append_left_none {β : Type} (k : String) (l1 l2 : List (String × β))
    (h : ∀ p ∈ l1, p.1 ≠ k) : List.lookup k (l1 ++ l2) = List.lookup k l2 := by
  induction l1 with
  | nil => simp
  | cons a l ih =>
    obtain ⟨k1, v1⟩ := a
    have ha : k1 ≠ k := h (k1, v1) (by simp)
    have hk : (k == k1) = false := by
      rw [beq_eq_false_iff_ne]
      exact fun hh => ha hh.symm
    simp only [List.cons_append, List.lookup, hk]
    exact ih (fun p hp => h p (by simp [hp]))

theorem fetchAndCacheData_key (f : Nat → FetchOutcome ContentBody)
    (ty fn ts sig : String) (p : String × List Nat)
    (h : fetchAndCacheData f ty fn ts sig = some p) : p.1 = fn := by
  unfold fetchAndCacheData at h
  split at h
  · exact Option.noConfusion h
  · split at h
    · exact Option.noConfusion h
    · split at h
      · exact Option.noConfusion h
      · have hp := Option.some.inj h
        rw [← hp]

/-- A content fetch that fails before the write: the retry wrapper raised
(network failures and non-OK statuses included), or the data field of the
response body is missing or falsy. -/
def failsBeforeWrite (f : Nat → FetchOutcome ContentBody) : Bool :=
  match (fetchWithRetry f).1 with
  | Except.error _ => true
  | Except.ok r => !(truthy r.body.data)

theorem fetchAndCacheData_none_of_fail (f : Nat → FetchOutcome ContentBody)
    (ty fn ts sig : String) (h : failsBeforeWrite f = true) :
    fetchAndCacheData f ty fn ts sig = none := by
  unfold failsBeforeWrite at h
  unfold fetchAndCacheData
  split
  · rfl
  · next resp heq =>
    rw [heq] at h
    simp at h
    cases hd : resp.body.data with
    | none => simp [hd]
    | some d =>
      rw [hd] at h
      simp [truthy] at h
      simp [hd, h]

theorem REQUEST_TYPES_filename_inj :
    ∀ r1 ∈ REQUEST_TYPES, ∀ r2 ∈ REQUEST_TYPES, r1.filename = r2.filename → r1 = r2 := by
  decide

/-! ### Claim C5 -/

/-- Claim C5: for a content type whose fetch fails at any step before the
write — retry exhaustion (network or HTTP failure), or a missing or falsy
data field — fetchAndCacheData performs no write, and after the cycle the
cache entry of the file of that type is exactly what it was before the
cycle. -/
theorem fetchAndCacheData_no_write_on_failure (env : CycleEnv) (now : String)
    (st : ServerState) (req : RequestSpec) (hreq : req ∈ REQUEST_TYPES)
    (hfail : ∀ ts sig, failsBeforeWrite (env.contentFetch req.type ts sig) = true) :
    (∀ ts sig, fetchAndCacheData (env.contentFetch req.type ts sig)
        req.type req.filename ts sig = none)
    ∧ List.lookup req.filename ((runUpdateCycle env now st).1.cache) =
      List.lookup req.filename st.cache := by
  have hnone : ∀ ts sig, fetchAndCacheData (env.contentFetch req.type ts sig)
      req.type req.filename ts sig = none :=
    fun ts sig => fetchAndCacheData_none_of_fail _ _ _ _ _ (hfail ts sig)
  refine ⟨hnone, ?_⟩
  cases hr : (fetchWithRetry env.tokenFetch).1 with
  | error e => rw [runUpdateCycle_token_error env now st e hr]
  | ok resp =>
    rcases Bool.eq_false_or_eq_true
        (truthy resp.body.timestamp && truthy resp.body.signature) with hc | hc
    · rw [runUpdateCycle_token_ok env now st resp hr hc]
      apply lookup_append_left_none
      intro p hp
      obtain ⟨req2, hreq2, hF⟩ := List.mem_filterMap.mp hp
      have hkey : p.1 = req2.filename := fetchAndCacheData_key _ _ _ _ _ _ hF
      intro hcontra
      have hfe : req2.filename = req.filename := by rw [← hkey, hcontra]
      have hre : req2 = req := REQUEST_TYPES_filename_inj req2 hreq2 req hreq hfe
      subst hre
      rw [hnone (resp.body.timestamp.getD "") (resp.body.signature.getD "")] at hF
      exact Option.noConfusion hF
    · rw [runUpdateCycle_token_bad env now st resp hr hc]

/-- A cycle environment where the content endpoint is down for type live
only, and the token and the other two types answer normally. -/
def envLiveDown : CycleEnv :=
  ⟨fun _ => FetchOutcome.response 200 "OK" ⟨some "123", some "abcdef"⟩,
   fun ty _ _ _ =>
     if ty = "live" then FetchOutcome.netError "down"
     else FetchOutcome.response 200 "OK" ⟨some "QQ=="⟩⟩

/-- Claim C5, witness: with the live endpoint down, the live entry written
by an earlier cycle survives the new cycle unchanged. -/
theorem fetchAndCacheData_no_write_on_failure_witness :
    fetchAndCacheData (envLiveDown.contentFetch "live" "t" "s")
      "live" "live.json" "t" "s" = none
    ∧ List.lookup "live.json"
        ((runUpdateCycle envLiveDown "10:00:00" ⟨[("live.json", [76])], "Never"⟩).1.cache) =
      some [76] := by
  have h := fetchAndCacheData_no_write_on_failure envLiveDown "10:00:00"
    ⟨[("live.json", [76])], "Never"⟩ ⟨"live", "live.json", "Live"⟩
    (by decide) (fun ts sig => rfl)
  exact ⟨h.1 "t" "s", by rw [h.2]; rfl⟩

/-! ### Claim C4 -/

/-- Claim C4: the failure of one content type is contained in its own handler.
If type live fails before its write while types up and completed succeed,
the cycle still attempts all three types, writes exactly the two files
upcoming.json and completed.json, and leaves live.json as it was. -/
theorem runUpdateCycle_partial_failure (env : CycleEnv) (now : String)
    (st : ServerState) (resp : Response TokenBody) (ts sig : String)
    (cu cc : List Nat)
    (hok : (fetchWithRetry env.tokenFetch).1 = Except.ok resp)
    (hts : resp.body.timestamp = some ts) (hsig : resp.body.signature = some sig)
    (hts1 : ts ≠ "") (hsig1 : sig ≠ "")
    (hup : fetchAndCacheData (env.contentFetch "up" ts sig)
        "up" "upcoming.json" ts sig = some ("upcoming.json", cu))
    (hlive : fetchAndCacheData (env.contentFetch "live" ts sig)
        "live" "live.json" ts sig = none)
    (hcomp : fetchAndCacheData (env.contentFetch "completed" ts sig)
        "completed" "completed.json" ts sig = some ("completed.json", cc)) :
    List.lookup "upcoming.json" ((runUpdateCycle env now st).1.cache) = some cu
    ∧ List.lookup "completed.json" ((runUpdateCycle env now st).1.cache) = some cc
    ∧ List.lookup "live.json" ((runUpdateCycle env now st).1.cache) =
      List.lookup "live.json" st.cache
    ∧ (runUpdateCycle env now st).2 = ["up", "live", "completed"] := by
  have hcond : (truthy resp.body.timestamp && truthy resp.body.signature) = true := by
    simp [truthy, hts, hsig, hts1, hsig1]
  have hcycle := runUpdateCycle_token_ok env now st resp hok hcond
  rw [hts, hsig] at hcycle
  simp only [Option.getD_some] at hcycle
  have hwrites : REQUEST_TYPES.filterMap (fun req =>
      fetchAndCacheData (env.contentFetch req.type ts sig)
        req.type req.filename ts sig) =
      [("upcoming.json", cu), ("completed.json", cc)] := by
    simp [REQUEST_TYPES, List.filterMap_cons, hup, hlive, hcomp]
  rw [hwrites] at hcycle
  rw [hcycle]
  refine ⟨?_, ?_, ?_, rfl⟩
  · simp [List.lookup]
  · have hb : (("completed.json" : String) == "upcoming.json") = false := by decide
    simp [List.lookup, hb]
  · apply lookup_append_left_none
    intro p hp
    simp only [List.mem_cons, List.not_mem_nil, or_false] at hp
    rcases hp with rfl | rfl
    · exact (by decide : ("upcoming.json" : String) ≠ "live.json")
    · exact (by decide : ("completed.json" : String) ≠ "live.json")

/-- Claim C4, witness: in the live-down environment, the cycle writes
exactly upcoming.json and completed.json and preserves the old live.json
content. -/
theorem runUpdateCycle_partial_failure_witness :
    List.lookup "upcoming.json"
      ((runUpdateCycle envLiveDown "10:00:00" ⟨[("live.json", [76])], "Never"⟩).1.cache) =
      some [65]
    ∧ List.lookup "completed.json"
      ((runUpdateCycle envLiveDown "10:00:00" ⟨[("live.json", [76])], "Never"⟩).1.cache) =
      some [65]
    ∧ List.lookup "live.json"
      ((runUpdateCycle envLiveDown "10:00:00" ⟨[("live.json", [76])], "Never"⟩).1.cache) =
      some [76]
    ∧ (runUpdateCycle envLiveDown "10:00:00" ⟨[("live.json", [76])], "Never"⟩).2 =
      ["up", "live", "completed"] := by
  have h := runUpdateCycle_partial_failure envLiveDown "10:00:00"
    ⟨[("live.json", [76])], "Never"⟩ ⟨200, "OK", ⟨some "123", some "abcdef"⟩⟩
    "123" "abcdef" [65] [65] (by decide) rfl rfl (by decide) (by decide)
    (by decide) (by decide) (by decide)
  exact ⟨h.1, h.2.1, by rw [h.2.2.1]; rfl, h.2.2.2⟩

/-- Claim C7, witness at a concrete environment and state. -/
theorem runUpdateCycle_lastUpdate_witness :
    (runUpdateCycle envLiveDown "10:00:01" ⟨[], "Never"⟩).1.lastUpdateTime = "10:00:01"
    ∧ statusEndpoint (runUpdateCycle envLiveDown "10:00:01" ⟨[], "Never"⟩).1 = "10:00:01"
    ∧ statusEndpoint (⟨[], "Never"⟩ : ServerState) = "Never" :=
  runUpdateCycle_lastUpdate envLiveDown "10:00:01" ⟨[], "Never"⟩
